import Mathlib

/-!
Verification of the decision-synthesis core of the `invest` repository.

This file is a shallow embedding of `src/decision_engine.py`: the
`Recommendation` and `RiskTolerance` enumerations, the `DecisionFactors`
dataclass, the scoring method `DecisionEngine.generate_recommendation`,
the comparator `DecisionEngine.compare_recommendations`, and the
allocation synthesizer `DecisionEngine._generate_diversification_suggestions`.

Modelling conventions:
* Python `float` values are modelled as exact rationals (`ℚ`); Python
  `int` values as `ℤ` (Python integers are unbounded).
* Python `int(x)` applied to a float truncates toward zero; this is
  `pyInt` below.
* Reason / risk-factor strings are modelled by the inductive type `Msg`:
  one constructor per distinct message template of the source, carrying
  the numeric data interpolated into the template.  (String rendering of
  these templates is presentation only; `Msg.trendMsgUp`/`Down` carry the
  raw trend label, whose underscores the source replaces by spaces when
  rendering.)
* Fallible operations are modelled with `Except String`: the Python
  `RiskTolerance(value)` enum constructor raises `ValueError` on an
  unknown token, and formatting a `None` float (e.g.
  `f"{None:.1f}"`) raises `TypeError`; both become `Except.error`.
-/

set_option linter.unusedVariables false

namespace Invest

/-- Truncation toward zero of an exact rational, the behaviour of the
Python builtin `int()` on a float value. -/
def pyInt (q : ℚ) : ℤ := q.num.tdiv q.den

/-- The `Recommendation` enum of `decision_engine.py`. -/
inductive Recommendation where
  | STRONG_BUY
  | BUY
  | HOLD
  | AVOID
deriving DecidableEq

/-- The `RiskTolerance` enum of `decision_engine.py`. -/
inductive RiskTolerance where
  | conservative
  | moderate
  | aggressive
deriving DecidableEq

/-- The `.value` attribute of a `RiskTolerance` member. -/
def RiskTolerance.value : RiskTolerance → String
  | .conservative => "conservative"
  | .moderate => "moderate"
  | .aggressive => "aggressive"

/-- The Python enum constructor `RiskTolerance(value)`: looks a token up
among the member values and raises `ValueError` on anything else. -/
def RiskTolerance.fromValue (s : String) : Except String RiskTolerance :=
  if s = "conservative" then .ok .conservative
  else if s = "moderate" then .ok .moderate
  else if s = "aggressive" then .ok .aggressive
  else .error (s ++ " is not a valid RiskTolerance")

/-- The per-tier score cutoffs of one risk-tolerance profile. -/
structure Thresholds where
  strong_buy : ℤ
  buy : ℤ
  hold : ℤ
deriving DecidableEq

/-- The `self.thresholds` table built in `DecisionEngine.__init__`. -/
def thresholds : RiskTolerance → Thresholds
  | .conservative => ⟨70, 50, 30⟩
  | .moderate => ⟨60, 40, 20⟩
  | .aggressive => ⟨50, 30, 10⟩

/-- The `DecisionEngine` object: its only per-instance state is the
risk tolerance (the thresholds table is the same for every instance). -/
structure DecisionEngine where
  risk_tolerance : RiskTolerance
deriving DecidableEq

/-- `DecisionEngine.__init__`: coerces the string through the
`RiskTolerance` enum constructor, propagating its `ValueError`. -/
def DecisionEngine.init (risk_tolerance : String) : Except String DecisionEngine :=
  (RiskTolerance.fromValue risk_tolerance).map (fun rt => ⟨rt⟩)

/-- The `DecisionFactors` dataclass of `decision_engine.py`. -/
structure DecisionFactors where
  dip_percentage : ℚ
  rsi : ℚ
  rsi_status : String
  macd_bullish : Bool
  trend : String
  price_vs_ma50 : ℚ
  price_vs_ma200 : ℚ
  golden_cross : Bool
  volatility_level : String
  overall_sentiment : ℚ
  sentiment_label : String
  market_tone : String
  bullish_ratio : ℚ
  bearish_ratio : ℚ
  recession_probability : ℚ
  recession_level : String
  ai_bubble_risk : ℚ
  ai_bubble_level : String
  m2_yoy_growth : Option ℚ
  m2_score : ℤ
  m2_favorability : String
  currency_risk_level : Option String := none
  currency_change_pct : Option ℚ := none
  currency_impact : Option String := none
deriving DecidableEq

/-- One constructor per distinct reason / risk-factor message template of
`generate_recommendation`, carrying the interpolated numeric data. -/
inductive Msg where
  | majorDip (d : ℚ)
  | significantDip (d : ℚ)
  | moderateDip (d : ℚ)
  | smallDip (d : ℚ)
  | nearHigh (d : ℚ)
  | oversold (r : ℚ)
  | approachingOversold (r : ℚ)
  | overbought (r : ℚ)
  | elevatedRsi (r : ℚ)
  | trendMsgUp (t : String)
  | trendMsgDown (t : String)
  | goldenCross
  | macdBullishCrossover
  | m2Strong (g : ℚ)
  | m2Expanding (g : ℚ)
  | m2Contracting (g : ℚ)
  | m2Unavailable
  | strongPositiveSentiment (s : ℚ)
  | positiveSentiment (s : ℚ)
  | negativeSentiment (s : ℚ)
  | slightlyNegativeSentiment (s : ℚ)
  | bullishTone (r : ℚ)
  | bearishTone
  | highRecessionRisk (p : ℚ)
  | moderateRecessionRisk (p : ℚ)
  | lowRecessionRisk
  | highBubbleRisk (b : ℚ)
  | moderateBubbleConcerns (b : ℚ)
  | lowBubbleRisk
  | highVolatility
  | lowVolatility
  | currencyDrag (c : ℚ)
  | currencyHeadwind (c : ℚ)
  | currencyTailwind (c : ℚ)
  | noCurrencyRisk
deriving DecidableEq

/-- The contribution of one evaluator block of `generate_recommendation`:
a score delta, appended reasons, and appended risk factors. -/
structure Contrib where
  delta : ℤ
  reasons : List Msg
  risks : List Msg
deriving DecidableEq

/-- Block 1 of `generate_recommendation`: dip detection. -/
def dipEval (f : DecisionFactors) : Contrib :=
  if f.dip_percentage < -7 then ⟨35, [.majorDip f.dip_percentage], []⟩
  else if f.dip_percentage < -5 then ⟨30, [.significantDip f.dip_percentage], []⟩
  else if f.dip_percentage < -3 then ⟨20, [.moderateDip f.dip_percentage], []⟩
  else if f.dip_percentage < -1 then ⟨10, [.smallDip f.dip_percentage], []⟩
  else ⟨-5, [], [.nearHigh f.dip_percentage]⟩

/-- Block 2 of `generate_recommendation`: RSI momentum. -/
def rsiEval (f : DecisionFactors) : Contrib :=
  if f.rsi < 30 then ⟨25, [.oversold f.rsi], []⟩
  else if f.rsi < 40 then ⟨15, [.approachingOversold f.rsi], []⟩
  else if f.rsi > 70 then ⟨-20, [], [.overbought f.rsi]⟩
  else if f.rsi > 60 then ⟨-10, [], [.elevatedRsi f.rsi]⟩
  else ⟨0, [], []⟩

/-- Block 3 of `generate_recommendation`: trend plus golden cross. -/
def trendEval (f : DecisionFactors) : Contrib :=
  let base : Contrib :=
    if f.trend = "strong_uptrend" ∨ f.trend = "uptrend" then
      ⟨10, [.trendMsgUp f.trend], []⟩
    else if f.trend = "strong_downtrend" ∨ f.trend = "downtrend" then
      ⟨-15, [], [.trendMsgDown f.trend]⟩
    else ⟨0, [], []⟩
  if f.golden_cross then
    ⟨base.delta + 5, base.reasons ++ [.goldenCross], base.risks⟩
  else base

/-- Block 4 of `generate_recommendation`: MACD. -/
def macdEval (f : DecisionFactors) : Contrib :=
  if f.macd_bullish then ⟨10, [.macdBullishCrossover], []⟩ else ⟨-5, [], []⟩

/-- Block 5 of `generate_recommendation`: M2 money supply.  When growth
data is present the raw `m2_score` is added; when absent the contribution
is zero and a risk reason is appended. -/
def m2Eval (f : DecisionFactors) : Contrib :=
  match f.m2_yoy_growth with
  | some g =>
    if f.m2_score ≥ 20 then ⟨f.m2_score, [.m2Strong g], []⟩
    else if f.m2_score ≥ 10 then ⟨f.m2_score, [.m2Expanding g], []⟩
    else if f.m2_score ≤ -15 then ⟨f.m2_score, [], [.m2Contracting g]⟩
    else ⟨f.m2_score, [], []⟩
  | none => ⟨0, [], [.m2Unavailable]⟩

/-- Block 6 of `generate_recommendation`: aggregate sentiment and market
tone (two consecutive conditional chains of the source). -/
def sentimentEval (f : DecisionFactors) : Contrib :=
  let s : Contrib :=
    if f.overall_sentiment > 0.2 then ⟨20, [.strongPositiveSentiment f.overall_sentiment], []⟩
    else if f.overall_sentiment > 0.05 then ⟨10, [.positiveSentiment f.overall_sentiment], []⟩
    else if f.overall_sentiment < -0.2 then ⟨-20, [], [.negativeSentiment f.overall_sentiment]⟩
    else if f.overall_sentiment < -0.05 then ⟨-10, [], [.slightlyNegativeSentiment f.overall_sentiment]⟩
    else ⟨0, [], []⟩
  let t : Contrib :=
    if f.market_tone = "bullish" ∧ f.bullish_ratio > 0.25 then ⟨10, [.bullishTone f.bullish_ratio], []⟩
    else if f.market_tone = "bearish" then ⟨-15, [], [.bearishTone]⟩
    else ⟨0, [], []⟩
  ⟨s.delta + t.delta, s.reasons ++ t.reasons, s.risks ++ t.risks⟩

/-- Block 7 of `generate_recommendation`: recession probability. -/
def recessionEval (f : DecisionFactors) : Contrib :=
  if f.recession_probability > 0.6 then ⟨-40, [], [.highRecessionRisk f.recession_probability]⟩
  else if f.recession_probability > 0.3 then ⟨-20, [], [.moderateRecessionRisk f.recession_probability]⟩
  else if f.recession_probability < 0.1 then ⟨5, [.lowRecessionRisk], []⟩
  else ⟨0, [], []⟩

/-- Block 8 of `generate_recommendation`: AI bubble risk. -/
def bubbleEval (f : DecisionFactors) : Contrib :=
  if f.ai_bubble_risk > 0.6 then ⟨-30, [], [.highBubbleRisk f.ai_bubble_risk]⟩
  else if f.ai_bubble_risk > 0.4 then ⟨-15, [], [.moderateBubbleConcerns f.ai_bubble_risk]⟩
  else if f.ai_bubble_risk < 0.2 then ⟨5, [.lowBubbleRisk], []⟩
  else ⟨0, [], []⟩

/-- Block 9 of `generate_recommendation`: volatility. -/
def volatilityEval (f : DecisionFactors) : Contrib :=
  if f.volatility_level = "high" then ⟨-10, [], [.highVolatility]⟩
  else if f.volatility_level = "low" then ⟨5, [.lowVolatility], []⟩
  else ⟨0, [], []⟩

/-- Python truthiness of the optional string `currency_risk_level`:
false for `None` and for the empty string. -/
def strTruthy : Option String → Bool
  | none => false
  | some s => s ≠ ""

/-- Block 10 of `generate_recommendation`: currency risk.  The `high` and
`moderate` branches format `currency_change_pct` with `:.1f` and the
`positive`-impact branch applies `abs` to it, so each of the three raises
`TypeError` when that field is `None`. -/
def currencyEval (index_name : String) (f : DecisionFactors) : Except String Contrib :=
  if index_name = "SP500" ∧ strTruthy f.currency_risk_level then
    if f.currency_risk_level = some "high" then
      match f.currency_change_pct with
      | some c => .ok ⟨-25, [], [.currencyDrag c]⟩
      | none => .error "unsupported format string passed to NoneType.__format__"
    else if f.currency_risk_level = some "moderate" then
      match f.currency_change_pct with
      | some c => .ok ⟨-15, [], [.currencyHeadwind c]⟩
      | none => .error "unsupported format string passed to NoneType.__format__"
    else if f.currency_impact = some "positive" then
      match f.currency_change_pct with
      | some c => .ok ⟨10, [.currencyTailwind |c|], []⟩
      | none => .error "bad operand type for abs"
    else .ok ⟨0, [], []⟩
  else if index_name = "STOXX600" then
    .ok ⟨5, [.noCurrencyRisk], []⟩
  else .ok ⟨0, [], []⟩

/-- The dictionary returned by `generate_recommendation`. -/
structure RecResult where
  recommendation : Recommendation
  confidence : ℚ
  score : ℤ
  reasons : List Msg
  risk_factors : List Msg
  risk_tolerance : String
deriving DecidableEq

/-- The final classification of `generate_recommendation`: thresholds of
the active risk tolerance map the score to a recommendation and a
confidence. -/
def classify (rt : RiskTolerance) (score : ℤ) : Recommendation × ℚ :=
  let t := thresholds rt
  if score ≥ t.strong_buy then (.STRONG_BUY, min ((score : ℚ) / 100) 0.95)
  else if score ≥ t.buy then (.BUY, min ((score : ℚ) / 100) 0.85)
  else if score ≥ t.hold then (.HOLD, min ((score : ℚ) / 100) 0.70)
  else (.AVOID, min (|(score : ℚ)|/ 100) 0.80)

/-- `DecisionEngine.generate_recommendation`: runs the ten evaluator
blocks in source order, sums their deltas into the score, concatenates
their reason / risk-factor lists in order, and classifies the score. -/
def DecisionEngine.generate_recommendation (e : DecisionEngine)
    (index_name : String) (f : DecisionFactors) : Except String RecResult := do
  let c1 := dipEval f
  let c2 := rsiEval f
  let c3 := trendEval f
  let c4 := macdEval f
  let c5 := m2Eval f
  let c6 := sentimentEval f
  let c7 := recessionEval f
  let c8 := bubbleEval f
  let c9 := volatilityEval f
  let c10 ← currencyEval index_name f
  let score := c1.delta + c2.delta + c3.delta + c4.delta + c5.delta
    + c6.delta + c7.delta + c8.delta + c9.delta + c10.delta
  let rc := classify e.risk_tolerance score
  return {
    recommendation := rc.1
    confidence := rc.2
    score := score
    reasons := c1.reasons ++ c2.reasons ++ c3.reasons ++ c4.reasons ++ c5.reasons
      ++ c6.reasons ++ c7.reasons ++ c8.reasons ++ c9.reasons ++ c10.reasons
    risk_factors := c1.risks ++ c2.risks ++ c3.risks ++ c4.risks ++ c5.risks
      ++ c6.risks ++ c7.risks ++ c8.risks ++ c9.risks ++ c10.risks
    risk_tolerance := e.risk_tolerance.value
  }

/-- The `scores` dictionary of `compare_recommendations`: the entry for
STOXX600 is present only when a third result was supplied. -/
structure Scores where
  sp500 : ℤ
  cw8 : ℤ
  stoxx600 : Option ℤ
deriving DecidableEq

/-- One two-index allocation row (percentages plus the fixed description
string of that profile). -/
structure Alloc2 where
  sp500 : ℤ
  cw8 : ℤ
  description : String
deriving DecidableEq

/-- One three-index allocation row. -/
structure Alloc3 where
  sp500 : ℤ
  cw8 : ℤ
  stoxx600 : ℤ
  description : String
deriving DecidableEq

/-- The index identities of the three-way comparison, in the insertion
order of the Python `scores` dictionary. -/
inductive Idx where
  | sp500
  | cw8
  | stoxx600
deriving DecidableEq

/-- The `.upper()` of an index key, used in the aggressive description. -/
def Idx.upper : Idx → String
  | .sp500 => "SP500"
  | .cw8 => "CW8"
  | .stoxx600 => "STOXX600"

/-- The two-index base split: proportional percentage for sp500 clamped
to [0,100], remainder to cw8; 50/50 when the score total is not positive. -/
def alloc2Base (s c : ℤ) : ℤ × ℤ :=
  let total := s + c
  if total > 0 then
    let sp500_pct := max 0 (min 100 (pyInt ((s : ℚ) / (total : ℚ) * 100)))
    (sp500_pct, 100 - sp500_pct)
  else (50, 50)

/-- The two-index conservative row: sp500 leg capped at 40, remainder to
cw8. -/
def conservative2 (s c : ℤ) : Alloc2 :=
  let p := alloc2Base s c
  ⟨min p.1 40, 100 - min p.1 40, "Lower risk, favor global diversification"⟩

/-- The two-index moderate row: the raw proportional split. -/
def moderate2 (s c : ℤ) : Alloc2 :=
  let p := alloc2Base s c
  ⟨p.1, p.2, "Balanced allocation based on current scores"⟩

/-- The two-index aggressive row: sp500 leg boosted by 10 capped at 70,
cw8 leg reduced by 10 floored at 30. -/
def aggressive2 (s c : ℤ) : Alloc2 :=
  let p := alloc2Base s c
  ⟨min (p.1 + 10) 70, max (p.2 - 10) 30, "Higher concentration in best performer"⟩

/-- The three-index base split: first two legs floored proportional
percentages (clamped below at 0), third leg the forced remainder;
33/33/34 when the score total is not positive. -/
def alloc3Base (s c st : ℤ) : ℤ × ℤ × ℤ :=
  let total := s + c + st
  if total > 0 then
    let sp500_base := max 0 (pyInt ((s : ℚ) / (total : ℚ) * 100))
    let cw8_base := max 0 (pyInt ((c : ℚ) / (total : ℚ) * 100))
    (sp500_base, cw8_base, 100 - sp500_base - cw8_base)
  else (33, 33, 34)

/-- The three-index conservative row: sp500 clamped to [10,30], cw8 to
[20,40], remainder to stoxx600. -/
def conservative3 (s c st : ℤ) : Alloc3 :=
  let b := alloc3Base s c st
  let a := max 10 (min b.1 30)
  let w := max 20 (min b.2.1 40)
  ⟨a, w, 100 - a - w, "EUR investor focus: Favor European exposure, no currency risk"⟩

/-- The three-index moderate row: the raw base split. -/
def moderate3 (s c st : ℤ) : Alloc3 :=
  let b := alloc3Base s c st
  ⟨b.1, b.2.1, b.2.2, "Balanced allocation based on current opportunity scores"⟩

/-- The first maximal index of the `scores` dictionary in insertion
order, the behaviour of Python `max(scores, key=scores.get)`. -/
def bestIdx3 (s c st : ℤ) : Idx :=
  if c > s then (if st > c then .stoxx600 else .cw8)
  else (if st > s then .stoxx600 else .sp500)

/-- The second element of `sorted(scores.items(), key=value,
reverse=True)` (a stable descending sort): the first maximal element, in
insertion order, of the two remaining entries. -/
def secondIdx3 (s c st : ℤ) : Idx :=
  match bestIdx3 s c st with
  | .sp500 => if st > c then .stoxx600 else .cw8
  | .cw8 => if st > s then .stoxx600 else .sp500
  | .stoxx600 => if c > s then .cw8 else .sp500

/-- Writing one leg of a three-index allocation row. -/
def Alloc3.set (a : Alloc3) (i : Idx) (v : ℤ) : Alloc3 :=
  match i with
  | .sp500 => { a with sp500 := v }
  | .cw8 => { a with cw8 := v }
  | .stoxx600 => { a with stoxx600 := v }

/-- The three-index aggressive row: all legs zeroed, then 60 written to
the best performer and 40 to the second. -/
def aggressive3 (s c st : ℤ) : Alloc3 :=
  let best := bestIdx3 s c st
  let second := secondIdx3 s c st
  let base : Alloc3 :=
    ⟨0, 0, 0, "Concentrated in best performers: " ++ best.upper ++ " and " ++ second.upper⟩
  (base.set best 60).set second 40

/-- The three allocation rows, two-index or three-index form. -/
inductive Allocations where
  | two (conservative moderate aggressive : Alloc2)
  | three (conservative moderate aggressive : Alloc3)
deriving DecidableEq

/-- One constructor per rationale string template of
`_generate_diversification_suggestions`. -/
inductive Rationale where
  | stoxxPreferred3
  | sp500Watch3
  | cw8Mixed3
  | diversifyAll3
  | sp500Preferred2
  | cw8Preferred2
  | diversifyBoth2
deriving DecidableEq

/-- The dictionary returned by
`_generate_diversification_suggestions`. -/
structure DivSuggestion where
  allocations : Allocations
  rationale : Rationale
  recommended_profile : String
deriving DecidableEq

/-- `DecisionEngine._generate_diversification_suggestions`.  The source
receives the scores dictionary, the comparator preference and a
`has_stoxx600` flag; at its only call site the flag is exactly the
presence of the stoxx600 score, so the flag is taken from the optional
entry here. -/
def DecisionEngine.generate_diversification_suggestions (e : DecisionEngine)
    (scores : Scores) (preference : String) : DivSuggestion :=
  let allocations :=
    match scores.stoxx600 with
    | none =>
      Allocations.two (conservative2 scores.sp500 scores.cw8)
        (moderate2 scores.sp500 scores.cw8) (aggressive2 scores.sp500 scores.cw8)
    | some st =>
      Allocations.three (conservative3 scores.sp500 scores.cw8 st)
        (moderate3 scores.sp500 scores.cw8 st) (aggressive3 scores.sp500 scores.cw8 st)
  let rationale :=
    match scores.stoxx600 with
    | some _ =>
      if preference = "stoxx600" then Rationale.stoxxPreferred3
      else if preference = "sp500" then Rationale.sp500Watch3
      else if preference = "cw8" then Rationale.cw8Mixed3
      else Rationale.diversifyAll3
    | none =>
      if preference = "sp500" then Rationale.sp500Preferred2
      else if preference = "cw8" then Rationale.cw8Preferred2
      else Rationale.diversifyBoth2
  ⟨allocations, rationale, e.risk_tolerance.value⟩

/-- The dictionary key of an index identity. -/
def Idx.key : Idx → String
  | .sp500 => "sp500"
  | .cw8 => "cw8"
  | .stoxx600 => "stoxx600"

/-- The first maximal index of the two-entry `scores` dictionary in
insertion order. -/
def bestIdx2 (s c : ℤ) : Idx :=
  if c > s then .cw8 else .sp500

/-- One constructor per preference-message template of
`compare_recommendations`. -/
inductive CMsg where
  | stoxxStrongest3
  | sp500Strongest3
  | cw8Strongest3
  | allSimilar3
  | sp500Stronger2
  | cw8Stronger2
  | bothSimilar2
deriving DecidableEq

/-- One constructor per action template of `compare_recommendations`;
the INVEST action interpolates the buy count and the result count. -/
inductive AMsg where
  | goodTimeToInvest (buys total : ℕ)
  | considerStoxx600
  | considerSp500
  | considerCw8
  | considerSelective
  | waitForEntry
  | notGoodTime
deriving DecidableEq

/-- Number of results classified STRONG_BUY or BUY. -/
def buyCount (rs : List RecResult) : ℕ :=
  (rs.filter (fun r =>
    r.recommendation == Recommendation.STRONG_BUY
      || r.recommendation == Recommendation.BUY)).length

/-- Number of results classified HOLD. -/
def holdCount (rs : List RecResult) : ℕ :=
  (rs.filter (fun r => r.recommendation == Recommendation.HOLD)).length

/-- The dictionary returned by `compare_recommendations`. -/
structure CompareResult where
  preference : String
  message : CMsg
  overall_recommendation : String
  action : AMsg
  sp500_score : ℤ
  cw8_score : ℤ
  stoxx600_score : Option ℤ
  score_difference : ℤ
  scores : Scores
  diversification : DivSuggestion
deriving DecidableEq

/-- `DecisionEngine.compare_recommendations` over two or three scoring
results. -/
def DecisionEngine.compare_recommendations (e : DecisionEngine)
    (sp500_result cw8_result : RecResult) (stoxx600_result : Option RecResult) :
    CompareResult :=
  let scores : Scores :=
    ⟨sp500_result.score, cw8_result.score, stoxx600_result.map (fun r => r.score)⟩
  let best_score : ℤ :=
    match stoxx600_result with
    | some r => max scores.sp500 (max scores.cw8 r.score)
    | none => max scores.sp500 scores.cw8
  let worst_score : ℤ :=
    match stoxx600_result with
    | some r => min scores.sp500 (min scores.cw8 r.score)
    | none => min scores.sp500 scores.cw8
  let preference : String :=
    match stoxx600_result with
    | some r =>
      if best_score - worst_score < 10 then "multiple"
      else (bestIdx3 scores.sp500 scores.cw8 r.score).key
    | none =>
      if scores.sp500 > scores.cw8 + 15 then "sp500"
      else if scores.cw8 > scores.sp500 + 15 then "cw8"
      else "both"
  let message : CMsg :=
    match stoxx600_result with
    | some r =>
      if best_score - worst_score < 10 then CMsg.allSimilar3
      else
        match bestIdx3 scores.sp500 scores.cw8 r.score with
        | .stoxx600 => CMsg.stoxxStrongest3
        | .sp500 => CMsg.sp500Strongest3
        | .cw8 => CMsg.cw8Strongest3
    | none =>
      if scores.sp500 > scores.cw8 + 15 then CMsg.sp500Stronger2
      else if scores.cw8 > scores.sp500 + 15 then CMsg.cw8Stronger2
      else CMsg.bothSimilar2
  let results := [sp500_result, cw8_result] ++ stoxx600_result.toList
  let buys := buyCount results
  let holds := holdCount results
  let overall : String :=
    if buys ≥ 2 then "INVEST"
    else if buys ≥ 1 then "SELECTIVE"
    else if holds > 0 then "WAIT"
    else "AVOID"
  let action : AMsg :=
    if buys ≥ 2 then .goodTimeToInvest buys results.length
    else if buys ≥ 1 then
      if stoxx600_result.isSome ∧ preference = "stoxx600" then .considerStoxx600
      else if preference = "sp500" then .considerSp500
      else if preference = "cw8" then .considerCw8
      else .considerSelective
    else if holds > 0 then .waitForEntry
    else .notGoodTime
  { preference := preference
    message := message
    overall_recommendation := overall
    action := action
    sp500_score := scores.sp500
    cw8_score := scores.cw8
    stoxx600_score := scores.stoxx600
    score_difference := best_score - worst_score
    scores := scores
    diversification := e.generate_diversification_suggestions scores preference }

/-- Holds when every allocation row of a suggestion sums to exactly
100 percent. -/
def Allocations.sumTo100 : Allocations → Prop
  | .two a b c =>
    a.sp500 + a.cw8 = 100 ∧ b.sp500 + b.cw8 = 100 ∧ c.sp500 + c.cw8 = 100
  | .three a b c =>
    a.sp500 + a.cw8 + a.stoxx600 = 100 ∧ b.sp500 + b.cw8 + b.stoxx600 = 100 ∧
      c.sp500 + c.cw8 + c.stoxx600 = 100

/-- The score of one index identity among the three compared scores. -/
def Idx.scoreIn (i : Idx) (s c st : ℤ) : ℤ :=
  match i with
  | .sp500 => s
  | .cw8 => c
  | .stoxx600 => st

/-- Example A of the specification: major dip, oversold RSI, uptrend
with golden cross, bullish MACD, strong M2 expansion, strong positive
sentiment and bullish tone, low recession, bubble and volatility risk,
no currency data. -/
def exampleA : DecisionFactors where
  dip_percentage := -8
  rsi := 25
  rsi_status := "oversold"
  macd_bullish := true
  trend := "uptrend"
  price_vs_ma50 := 0
  price_vs_ma200 := 0
  golden_cross := true
  volatility_level := "low"
  overall_sentiment := 0.25
  sentiment_label := "positive"
  market_tone := "bullish"
  bullish_ratio := 0.3
  bearish_ratio := 0.1
  recession_probability := 0.05
  recession_level := "low"
  ai_bubble_risk := 0.1
  ai_bubble_level := "low"
  m2_yoy_growth := some 6.0
  m2_score := 20
  m2_favorability := "favorable"

/-- Example B of the specification: flat market with every optional
field absent. -/
def exampleB : DecisionFactors where
  dip_percentage := 0
  rsi := 50
  rsi_status := "neutral"
  macd_bullish := false
  trend := "sideways"
  price_vs_ma50 := 0
  price_vs_ma200 := 0
  golden_cross := false
  volatility_level := "moderate"
  overall_sentiment := 0
  sentiment_label := "neutral"
  market_tone := "neutral"
  bullish_ratio := 0.1
  bearish_ratio := 0.1
  recession_probability := 0.2
  recession_level := "low"
  ai_bubble_risk := 0.3
  ai_bubble_level := "moderate"
  m2_yoy_growth := none
  m2_score := 15
  m2_favorability := "neutral"

/-! ## Theorems -/

lemma alloc2Base_spec (s c : ℤ) :
    0 ≤ (alloc2Base s c).1 ∧ (alloc2Base s c).1 ≤ 100 ∧
      (alloc2Base s c).2 = 100 - (alloc2Base s c).1 := by
  simp only [alloc2Base]
  split_ifs with h
  · exact ⟨le_max_left _ _, max_le (by norm_num) (min_le_left _ _), rfl⟩
  · norm_num

/-- C6: for each tier among strong_buy, buy and hold, the conservative
cutoff strictly exceeds the moderate cutoff, which strictly exceeds the
aggressive cutoff. -/
theorem thresholds_strictly_descending :
    (thresholds .moderate).strong_buy < (thresholds .conservative).strong_buy ∧
    (thresholds .aggressive).strong_buy < (thresholds .moderate).strong_buy ∧
    (thresholds .moderate).buy < (thresholds .conservative).buy ∧
    (thresholds .aggressive).buy < (thresholds .moderate).buy ∧
    (thresholds .moderate).hold < (thresholds .conservative).hold ∧
    (thresholds .aggressive).hold < (thresholds .moderate).hold := by
  decide

/-- C7: constructing the engine with a token outside the three valid
risk tolerances yields the invalid-argument error of the enum
constructor; no silent coercion takes place. -/
theorem engine_init_rejects_invalid_tolerance (s : String)
    (h1 : s ≠ "conservative") (h2 : s ≠ "moderate") (h3 : s ≠ "aggressive") :
    DecisionEngine.init s = .error (s ++ " is not a valid RiskTolerance") := by
  simp [DecisionEngine.init, RiskTolerance.fromValue, h1, h2, h3, Except.map]

theorem engine_init_rejects_invalid_tolerance_witness :
    (("high" : String) ≠ "conservative" ∧ ("high" : String) ≠ "moderate" ∧
      ("high" : String) ≠ "aggressive") ∧
      DecisionEngine.init "high" = .error ("high" ++ " is not a valid RiskTolerance") :=
  ⟨⟨by decide, by decide, by decide⟩,
    engine_init_rejects_invalid_tolerance "high" (by decide) (by decide) (by decide)⟩

/-- C10: in the three-index conservative allocation the sp500 leg always
lies in [10,30], the cw8 leg in [20,40] and the stoxx600 remainder leg in
[30,70], for every choice of scores including the fallback. -/
theorem conservative3_leg_ranges (s c st : ℤ) :
    10 ≤ (conservative3 s c st).sp500 ∧ (conservative3 s c st).sp500 ≤ 30 ∧
    20 ≤ (conservative3 s c st).cw8 ∧ (conservative3 s c st).cw8 ≤ 40 ∧
    30 ≤ (conservative3 s c st).stoxx600 ∧ (conservative3 s c st).stoxx600 ≤ 70 := by
  simp only [conservative3]
  have h1 : 10 ≤ max 10 (min (alloc3Base s c st).1 30) := le_max_left _ _
  have h2 : max 10 (min (alloc3Base s c st).1 30) ≤ 30 :=
    max_le (by norm_num) (min_le_right _ _)
  have h3 : 20 ≤ max 20 (min (alloc3Base s c st).2.1 40) := le_max_left _ _
  have h4 : max 20 (min (alloc3Base s c st).2.1 40) ≤ 40 :=
    max_le (by norm_num) (min_le_right _ _)
  exact ⟨h1, h2, h3, h4, by omega, by omega⟩

/-- C2 counterexample: with scores 0 (sp500) and 80 (cw8) the
higher-scoring leg is cw8, yet the conservative two-index split assigns
it 100 percent, far above the claimed 40 percent cap — the cap applies
to the sp500 leg, not to the higher-scoring leg. -/
theorem conservative2_higher_leg_uncapped :
    (0 : ℤ) < 80 ∧ (conservative2 0 80).cw8 = 100 ∧
      ¬((conservative2 0 80).cw8 ≤ 40) := by
  norm_num [conservative2, alloc2Base, pyInt]

/-- C2 (amended): in the two-index allocation, for every pair of scores
the conservative profile caps the sp500 leg at 40 percent and assigns
the remainder (at least 60 percent) to the cw8 leg; the higher-scoring
leg is therefore capped only when it is the sp500 leg. -/
theorem conservative2_caps_sp500_leg (s c : ℤ) :
    (conservative2 s c).sp500 ≤ 40 ∧
      (conservative2 s c).cw8 = 100 - (conservative2 s c).sp500 ∧
      60 ≤ (conservative2 s c).cw8 := by
  refine ⟨?_, rfl, ?_⟩
  · exact min_le_right _ _
  · show 60 ≤ 100 - min (alloc2Base s c).1 40
    have := min_le_right (alloc2Base s c).1 40
    omega

lemma alloc3Base_sum (s c st : ℤ) :
    (alloc3Base s c st).1 + (alloc3Base s c st).2.1 + (alloc3Base s c st).2.2 = 100 := by
  simp only [alloc3Base]
  split_ifs with h
  · dsimp only
    ring
  · norm_num

lemma bestIdx3_ne_secondIdx3 (s c st : ℤ) : bestIdx3 s c st ≠ secondIdx3 s c st := by
  unfold secondIdx3
  rcases h : bestIdx3 s c st with _ | _ | _ <;> simp [h] <;> split_ifs <;> simp

lemma aggressive3_sum (s c st : ℤ) :
    (aggressive3 s c st).sp500 + (aggressive3 s c st).cw8 +
      (aggressive3 s c st).stoxx600 = 100 := by
  have h := bestIdx3_ne_secondIdx3 s c st
  unfold aggressive3
  rcases hb : bestIdx3 s c st with _ | _ | _ <;>
    rcases hs : secondIdx3 s c st with _ | _ | _ <;>
    simp_all [Alloc3.set]

/-- C3: for every set of scores (two- or three-index form) and every one
of the three allocation profiles, the percentages produced by the
allocation synthesizer sum to exactly 100, including the fallback rows
taken when the score total is not positive. -/
theorem allocation_rows_sum_to_100 (e : DecisionEngine) (sc : Scores) (pref : String) :
    (e.generate_diversification_suggestions sc pref).allocations.sumTo100 := by
  obtain ⟨s, c, st⟩ := sc
  obtain ⟨h0, h100, hrem⟩ := alloc2Base_spec s c
  rcases st with _ | st
  · simp only [DecisionEngine.generate_diversification_suggestions, Allocations.sumTo100]
    refine ⟨?_, ?_, ?_⟩
    · show min (alloc2Base s c).1 40 + (100 - min (alloc2Base s c).1 40) = 100
      ring
    · show (alloc2Base s c).1 + (alloc2Base s c).2 = 100
      omega
    · show min ((alloc2Base s c).1 + 10) 70 + max ((alloc2Base s c).2 - 10) 30 = 100
      omega
  · simp only [DecisionEngine.generate_diversification_suggestions, Allocations.sumTo100]
    refine ⟨?_, ?_, aggressive3_sum s c st⟩
    · show max 10 (min (alloc3Base s c st).1 30) + max 20 (min (alloc3Base s c st).2.1 40) +
        (100 - max 10 (min (alloc3Base s c st).1 30) -
          max 20 (min (alloc3Base s c st).2.1 40)) = 100
      ring
    · show (alloc3Base s c st).1 + (alloc3Base s c st).2.1 + (alloc3Base s c st).2.2 = 100
      exact alloc3Base_sum s c st

/-- C9: when M2 growth data is absent, the `m2_score` field has no
influence at all on `generate_recommendation` — two bundles differing
only in `m2_score` yield identical results. -/
theorem m2_score_ignored_when_growth_absent (e : DecisionEngine) (idx : String)
    (f : DecisionFactors) (x : ℤ) (h : f.m2_yoy_growth = none) :
    e.generate_recommendation idx f =
      e.generate_recommendation idx { f with m2_score := x } := by
  have hm : m2Eval { f with m2_score := x } = m2Eval f := by
    simp only [m2Eval]
    rw [show ({ f with m2_score := x } : DecisionFactors).m2_yoy_growth =
      f.m2_yoy_growth from rfl, h]
  simp only [DecisionEngine.generate_recommendation, hm]
  rfl

theorem m2_score_ignored_when_growth_absent_witness :
    exampleB.m2_yoy_growth = none ∧
      (DecisionEngine.mk .moderate).generate_recommendation "SP500" exampleB =
        (DecisionEngine.mk .moderate).generate_recommendation "SP500"
          { exampleB with m2_score := 999 } :=
  ⟨rfl, m2_score_ignored_when_growth_absent ⟨.moderate⟩ "SP500" exampleB 999 rfl⟩

/-- C8: when the optional fields are all absent, `generate_recommendation`
returns normally (an `ok` result, never an error), the M2 block
contributes exactly 0 to the score, and the explanatory risk reason about
missing M2 data appears among the returned risk factors. -/
theorem optional_fields_absent_degrade_gracefully (e : DecisionEngine) (idx : String)
    (f : DecisionFactors) (h1 : f.m2_yoy_growth = none)
    (h2 : f.currency_risk_level = none) (h3 : f.currency_change_pct = none)
    (h4 : f.currency_impact = none) :
    m2Eval f = ⟨0, [], [Msg.m2Unavailable]⟩ ∧
      ∃ r, e.generate_recommendation idx f = .ok r ∧
        Msg.m2Unavailable ∈ r.risk_factors := by
  have hm : m2Eval f = ⟨0, [], [Msg.m2Unavailable]⟩ := by simp [m2Eval, h1]
  obtain ⟨c10, hc⟩ : ∃ c10, currencyEval idx f = .ok c10 := by
    have hcond : ¬(idx = "SP500" ∧ strTruthy f.currency_risk_level = true) := by
      simp [h2, strTruthy]
    simp only [currencyEval, if_neg hcond]
    split_ifs <;> exact ⟨_, rfl⟩
  refine ⟨hm, ?_⟩
  simp only [DecisionEngine.generate_recommendation, hc, hm, bind, Except.bind, pure,
    Except.pure]
  exact ⟨_, rfl, by simp⟩

theorem optional_fields_absent_degrade_gracefully_witness :
    (exampleB.m2_yoy_growth = none ∧ exampleB.currency_risk_level = none ∧
      exampleB.currency_change_pct = none ∧ exampleB.currency_impact = none) ∧
      (m2Eval exampleB = ⟨0, [], [Msg.m2Unavailable]⟩ ∧
        ∃ r, (DecisionEngine.mk .conservative).generate_recommendation "CW8" exampleB = .ok r ∧
          Msg.m2Unavailable ∈ r.risk_factors) :=
  ⟨⟨rfl, rfl, rfl, rfl⟩,
    optional_fields_absent_degrade_gracefully ⟨.conservative⟩ "CW8" exampleB rfl rfl rfl rfl⟩

/-- C1: on Example A (with no currency data and an index that is not the
home-currency-denominated STOXX600) the engine scores exactly 150 and
recommends STRONG_BUY, whichever of the three risk tolerances the engine
holds. -/
theorem exampleA_scores_150_strong_buy (e : DecisionEngine) (idx : String)
    (h : idx ≠ "STOXX600") :
    ∃ r, e.generate_recommendation idx exampleA = .ok r ∧
      r.score = 150 ∧ r.recommendation = .STRONG_BUY := by
  have hd : dipEval exampleA = ⟨35, [.majorDip (-8)], []⟩ := by
    norm_num [dipEval, exampleA]
  have hr : rsiEval exampleA = ⟨25, [.oversold 25], []⟩ := by
    norm_num [rsiEval, exampleA]
  have ht : trendEval exampleA = ⟨15, [.trendMsgUp "uptrend", .goldenCross], []⟩ := by
    norm_num [trendEval, exampleA]
  have hma : macdEval exampleA = ⟨10, [.macdBullishCrossover], []⟩ := by
    norm_num [macdEval, exampleA]
  have hm2 : m2Eval exampleA = ⟨20, [.m2Strong 6.0], []⟩ := by
    norm_num [m2Eval, exampleA]
  have hs : sentimentEval exampleA =
      ⟨30, [.strongPositiveSentiment 0.25, .bullishTone 0.3], []⟩ := by
    norm_num [sentimentEval, exampleA]
  have hrc : recessionEval exampleA = ⟨5, [.lowRecessionRisk], []⟩ := by
    norm_num [recessionEval, exampleA]
  have hb : bubbleEval exampleA = ⟨5, [.lowBubbleRisk], []⟩ := by
    norm_num [bubbleEval, exampleA]
  have hv : volatilityEval exampleA = ⟨5, [.lowVolatility], []⟩ := by
    (norm_num [volatilityEval, exampleA]; decide)
  have hc : currencyEval idx exampleA = .ok ⟨0, [], []⟩ := by
    have hcond : ¬(idx = "SP500" ∧ strTruthy exampleA.currency_risk_level = true) := by
      simp [exampleA, strTruthy]
    simp only [currencyEval, if_neg hcond, if_neg h]
  simp only [DecisionEngine.generate_recommendation, hd, hr, ht, hma, hm2, hs, hrc, hb, hv,
    hc, bind, Except.bind]
  refine ⟨_, rfl, ?_, ?_⟩
  · norm_num
  · obtain ⟨rt⟩ := e
    cases rt <;> norm_num [classify, thresholds]

theorem exampleA_scores_150_strong_buy_witness :
    ("SP500" : String) ≠ "STOXX600" ∧
      ∃ r, (DecisionEngine.mk .conservative).generate_recommendation "SP500" exampleA = .ok r ∧
        r.score = 150 ∧ r.recommendation = .STRONG_BUY :=
  ⟨by decide, exampleA_scores_150_strong_buy ⟨.conservative⟩ "SP500" (by decide)⟩

lemma counts_zero_iff (rs : List RecResult) :
    buyCount rs = 0 ∧ holdCount rs = 0 ↔ ∀ r ∈ rs, r.recommendation = .AVOID := by
  simp only [buyCount, holdCount, List.length_eq_zero, List.filter_eq_nil_iff]
  constructor
  · rintro ⟨h1, h2⟩ r hr
    have hb := h1 r hr
    have hh := h2 r hr
    cases hrec : r.recommendation <;> rw [hrec] at hb hh <;> simp_all
  · intro h
    refine ⟨fun r hr => ?_, fun r hr => ?_⟩ <;> simp [h r hr]

/-- C4: the comparator's overall call is INVEST iff at least two results
are classified STRONG_BUY or BUY, SELECTIVE iff exactly one is, WAIT iff
none is and at least one result is HOLD, and AVOID iff every result is
AVOID; the four outcomes are exhaustive (and, the four strings being
distinct, mutually exclusive). -/
theorem overall_call_rule (e : DecisionEngine) (spr cwr : RecResult)
    (stxr : Option RecResult) :
    ((e.compare_recommendations spr cwr stxr).overall_recommendation = "INVEST" ↔
      2 ≤ buyCount ([spr, cwr] ++ stxr.toList)) ∧
    ((e.compare_recommendations spr cwr stxr).overall_recommendation = "SELECTIVE" ↔
      buyCount ([spr, cwr] ++ stxr.toList) = 1) ∧
    ((e.compare_recommendations spr cwr stxr).overall_recommendation = "WAIT" ↔
      buyCount ([spr, cwr] ++ stxr.toList) = 0 ∧
        1 ≤ holdCount ([spr, cwr] ++ stxr.toList)) ∧
    ((e.compare_recommendations spr cwr stxr).overall_recommendation = "AVOID" ↔
      ∀ r ∈ [spr, cwr] ++ stxr.toList, r.recommendation = .AVOID) ∧
    ((e.compare_recommendations spr cwr stxr).overall_recommendation = "INVEST" ∨
      (e.compare_recommendations spr cwr stxr).overall_recommendation = "SELECTIVE" ∨
      (e.compare_recommendations spr cwr stxr).overall_recommendation = "WAIT" ∨
      (e.compare_recommendations spr cwr stxr).overall_recommendation = "AVOID") := by
  simp only [DecisionEngine.compare_recommendations]
  split_ifs with hb1 hb2 hh
  · exact ⟨iff_of_true rfl hb1, iff_of_false (by decide) (by omega),
      iff_of_false (by decide) (by omega),
      iff_of_false (by decide) (by rw [← counts_zero_iff]; omega), Or.inl rfl⟩
  · exact ⟨iff_of_false (by decide) (by omega), iff_of_true rfl (by omega),
      iff_of_false (by decide) (by omega),
      iff_of_false (by decide) (by rw [← counts_zero_iff]; omega), Or.inr (Or.inl rfl)⟩
  · exact ⟨iff_of_false (by decide) (by omega), iff_of_false (by decide) (by omega),
      iff_of_true rfl ⟨by omega, by omega⟩,
      iff_of_false (by decide) (by rw [← counts_zero_iff]; omega),
      Or.inr (Or.inr (Or.inl rfl))⟩
  · exact ⟨iff_of_false (by decide) (by omega), iff_of_false (by decide) (by omega),
      iff_of_false (by decide) (by omega),
      iff_of_true rfl ((counts_zero_iff _).mp ⟨by omega, by omega⟩),
      Or.inr (Or.inr (Or.inr rfl))⟩

lemma bestIdx3_attains_max (s c st : ℤ) :
    (bestIdx3 s c st).scoreIn s c st = max s (max c st) := by
  unfold bestIdx3
  split_ifs <;> simp only [Idx.scoreIn] <;> omega

/-- C5: with two indices an index is preferred iff its score exceeds the
other by more than 15 points (otherwise the preference is "both"); with
three indices a spread below 10 forces the preference "multiple", and
otherwise the preferred index attains the maximum score. -/
theorem tie_break_rule (e : DecisionEngine) (spr cwr stx : RecResult) :
    (((e.compare_recommendations spr cwr none).preference = "sp500" ↔
        spr.score > cwr.score + 15) ∧
      ((e.compare_recommendations spr cwr none).preference = "cw8" ↔
        cwr.score > spr.score + 15) ∧
      ((e.compare_recommendations spr cwr none).preference = "both" ↔
        ¬(spr.score > cwr.score + 15) ∧ ¬(cwr.score > spr.score + 15))) ∧
    (((e.compare_recommendations spr cwr (some stx)).preference = "multiple" ↔
        max spr.score (max cwr.score stx.score) -
          min spr.score (min cwr.score stx.score) < 10) ∧
      (max spr.score (max cwr.score stx.score) -
          min spr.score (min cwr.score stx.score) < 10 ∨
        (((e.compare_recommendations spr cwr (some stx)).preference = "sp500" ∧
            spr.score = max spr.score (max cwr.score stx.score)) ∨
          ((e.compare_recommendations spr cwr (some stx)).preference = "cw8" ∧
            cwr.score = max spr.score (max cwr.score stx.score)) ∨
          ((e.compare_recommendations spr cwr (some stx)).preference = "stoxx600" ∧
            stx.score = max spr.score (max cwr.score stx.score))))) := by
  constructor
  · simp only [DecisionEngine.compare_recommendations]
    split_ifs with h1 h2
    · exact ⟨iff_of_true rfl h1, iff_of_false (by decide) (by omega),
        iff_of_false (by decide) (by omega)⟩
    · exact ⟨iff_of_false (by decide) (by omega), iff_of_true rfl h2,
        iff_of_false (by decide) (by omega)⟩
    · exact ⟨iff_of_false (by decide) (by omega), iff_of_false (by decide) (by omega),
        iff_of_true rfl ⟨h1, h2⟩⟩
  · simp only [DecisionEngine.compare_recommendations]
    split_ifs with h
    · exact ⟨iff_of_true rfl h, Or.inl h⟩
    · refine ⟨iff_of_false ?_ h, Or.inr ?_⟩
      · rcases hb : bestIdx3 spr.score cwr.score stx.score <;> decide
      · have hmax := bestIdx3_attains_max spr.score cwr.score stx.score
        rcases hb : bestIdx3 spr.score cwr.score stx.score <;> rw [hb] at hmax <;>
          simp only [Idx.scoreIn] at hmax
        · exact Or.inl ⟨rfl, hmax⟩
        · exact Or.inr (Or.inl ⟨rfl, hmax⟩)
        · exact Or.inr (Or.inr ⟨rfl, hmax⟩)

end Invest
